import Mathlib

set_option maxRecDepth 100000

/-!
Shallow embedding of `src/current/library/msp430x2xx/watchdog.c` (easymsp),
the watchdog control-register manager for the MSP430x2xx family, together
with proofs of the specified properties.

The 16-bit control register WDTCTL is password protected: every write must
carry the password constant WDTPW in its upper byte.  The library only ever
reads the register through an `(unsigned char)` cast, i.e. it observes the
low settings byte; we model the register by the retained low byte.
-/

/-- Watchdog password, upper byte of every committed write (vendor header
constant for the MSP430x2xx family). -/
def WDTPW : Nat := 0x5A00

/-- Hold (stop counting) bit. -/
def WDTHOLD : Nat := 0x0080

/-- NMI edge select bit. -/
def WDTNMIES : Nat := 0x0040

/-- NMI select bit (reset pin acts as NMI input when set). -/
def WDTNMI : Nat := 0x0020

/-- Timer mode select bit (interval-timer mode when set). -/
def WDTTMSEL : Nat := 0x0010

/-- Count clear bit. -/
def WDTCNTCL : Nat := 0x0008

/-- Clock source select bit (ACLK when set, SMCLK when clear). -/
def WDTSSEL : Nat := 0x0004

/-- Interval select encoding 1 (divider 8192 per the hardware manual). -/
def WDTIS_1 : Nat := 0x0001

/-- Interval select encoding 2 (divider 512). -/
def WDTIS_2 : Nat := 0x0002

/-- Interval select encoding 3 (divider 64). -/
def WDTIS_3 : Nat := 0x0003

/-- Watchdog interrupt enable bit inside the IE1 register. -/
def WDTIE : Nat := 0x01

/-- Modelled from the spec: the library header defining the two numeric
clock-source identifiers is not under src/; the spec says only that they are
two distinct named constants (auxiliary clock and sub-main clock). -/
def ACLK : Nat := 1

/-- Modelled from the spec: sub-main clock identifier, distinct from `ACLK`. -/
def SMCLK : Nat := 2

/-- Modelled from the spec: numeric identifier for NMI reset-pin mode. -/
def NMI : Nat := 1

/-- Modelled from the spec: numeric identifier for standard-reset pin mode,
distinct from `NMI`. -/
def STANDARD_RESET : Nat := 0

/-- Modelled from the spec: numeric identifier for the falling NMI edge. -/
def FALLING : Nat := 1

/-- Modelled from the spec: numeric identifier for the rising NMI edge,
distinct from `FALLING`. -/
def RISING : Nat := 0

/-- Machine state visible to the library: the retained low settings byte of
WDTCTL, the IE1 interrupt-enable register, and the file-scope callback slot
`watchdogFunctionToCall` (callbacks are identified abstractly by a `Nat`,
`none` meaning the slot was never written). -/
@[ext]
structure MCU where
  wdtctl : Nat
  ie1 : Nat
  watchdogFunctionToCall : Option Nat
  deriving DecidableEq

/-- Observable side effects of one library call, in program order. -/
inductive Event where
  | wdtWrite (v : Nat)
  | ieWrite (v : Nat)
  | cbStore (f : Nat)
  deriving DecidableEq

/-- Reading WDTCTL through the `(unsigned char)` cast: the retained low
settings byte. -/
def readLow (s : MCU) : Nat := s.wdtctl % 256

/-- A committed write to WDTCTL; the hardware retains the low settings byte
(the upper byte is the password, checked by hardware, not stored). -/
def commitWDT (s : MCU) (v : Nat) : MCU := { s with wdtctl := v % 256 }

/-- Embedding of `detectWatchdog`: write the current low byte back with the
hold bit set, then report whether the low byte reads back non-zero. -/
def detectWatchdog (s : MCU) : MCU × Bool × List Event :=
  let tempwdt := readLow s
  let v := WDTPW + (tempwdt ||| WDTHOLD)
  let s1 := commitWDT s v
  (s1, decide (readLow s1 > 0), [Event.wdtWrite v])

/-- Embedding of `holdWatchdog`: read the low byte, OR in the hold bit,
write it back with the password. -/
def holdWatchdog (s : MCU) : MCU × List Event :=
  let tempwdt := readLow s
  let v := WDTPW + (tempwdt ||| WDTHOLD)
  (commitWDT s v, [Event.wdtWrite v])

/-- The divider switch shared by `startWatchdog` and `startWatchdogTimer`:
the interval-select bits OR-ed into `watchdogbits` for an accepted divider,
`none` for the `default:` branch.  The source accepts literal 8912 (not
8192) for the `WDTIS_1` encoding. -/
def wdtDividerBits (divider : Nat) : Option Nat :=
  match divider with
  | 64 => some WDTIS_3
  | 512 => some WDTIS_2
  | 8912 => some WDTIS_1
  | 32768 => some 0
  | _ => none

/-- Embedding of `startWatchdog`: initial hold write, clock-source
validation (status 1), divider switch (status 2), then one committing write
of `WDTPW ||| watchdogbits` where `watchdogbits` starts from
`WDTHOLD ||| WDTCNTCL`. -/
def startWatchdog (s : MCU) (clocksource divider : Nat) : MCU × Nat × List Event :=
  let w0 := WDTPW + WDTHOLD
  let s1 := commitWDT s w0
  let evs := [Event.wdtWrite w0]
  let watchdogbits := WDTHOLD ||| WDTCNTCL
  if clocksource ≠ ACLK ∧ clocksource ≠ SMCLK then
    (s1, 1, evs)
  else
    let watchdogbits := if clocksource = ACLK then watchdogbits ||| WDTSSEL else watchdogbits
    match wdtDividerBits divider with
    | none => (s1, 2, evs)
    | some b =>
      let w1 := WDTPW ||| (watchdogbits ||| b)
      (commitWDT s1 w1, 0, evs ++ [Event.wdtWrite w1])

/-- Embedding of `resetWatchdog`: write the bare password. -/
def resetWatchdog (s : MCU) : MCU × List Event :=
  (commitWDT s WDTPW, [Event.wdtWrite WDTPW])

/-- Embedding of `clearWatchdog`: read the low byte, OR in the count-clear
bit, write it back with the password. -/
def clearWatchdog (s : MCU) : MCU × List Event :=
  let v := WDTPW + (readLow s ||| WDTCNTCL)
  (commitWDT s v, [Event.wdtWrite v])

/-- Embedding of `holdWatchdogTimer`: read the low byte, OR in the hold bit,
write it back with the password. -/
def holdWatchdogTimer (s : MCU) : MCU × List Event :=
  let v := WDTPW + (readLow s ||| WDTHOLD)
  (commitWDT s v, [Event.wdtWrite v])

/-- Embedding of `startWatchdogTimer`: initial hold write, the same input
validation as `startWatchdog`, then `IE1 |= WDTIE`, the callback store into
`watchdogFunctionToCall`, and the committing write of `WDTPW ||| watchdogbits`
where `watchdogbits` starts from `WDTTMSEL ||| WDTCNTCL`. -/
def startWatchdogTimer (s : MCU) (clocksource divider fn : Nat) : MCU × Nat × List Event :=
  let w0 := WDTPW + WDTHOLD
  let s1 := commitWDT s w0
  let evs := [Event.wdtWrite w0]
  let watchdogbits := WDTTMSEL ||| WDTCNTCL
  if clocksource ≠ ACLK ∧ clocksource ≠ SMCLK then
    (s1, 1, evs)
  else
    let watchdogbits := if clocksource = ACLK then watchdogbits ||| WDTSSEL else watchdogbits
    match wdtDividerBits divider with
    | none => (s1, 2, evs)
    | some b =>
      let ie := s1.ie1 ||| WDTIE
      let s2 := { s1 with ie1 := ie }
      let s3 := { s2 with watchdogFunctionToCall := some fn }
      let w1 := WDTPW ||| (watchdogbits ||| b)
      (commitWDT s3 w1, 0,
        evs ++ [Event.ieWrite ie, Event.cbStore fn, Event.wdtWrite w1])

/-- Embedding of `resetWatchdogTimer`: read the low byte, OR in the timer
mode select bit, write it back with the password. -/
def resetWatchdogTimer (s : MCU) : MCU × List Event :=
  let v := WDTPW + (readLow s ||| WDTTMSEL)
  (commitWDT s v, [Event.wdtWrite v])

/-- Embedding of `resetPinMode`: one password-guarded read-modify-write for
the NMI select bit (set when `mode = NMI`, cleared otherwise, via an 8-bit
AND with the complement), then a second one for the NMI edge select bit. -/
def resetPinMode (s : MCU) (mode edge : Nat) : MCU × List Event :=
  let v1 :=
    if mode = NMI then WDTPW + (readLow s ||| WDTNMI)
    else WDTPW + (readLow s &&& (0xFF ^^^ WDTNMI))
  let s1 := commitWDT s v1
  let v2 :=
    if edge = FALLING then WDTPW + (readLow s1 ||| WDTNMIES)
    else WDTPW + (readLow s1 &&& (0xFF ^^^ WDTNMIES))
  (commitWDT s1 v2, [Event.wdtWrite v1, Event.wdtWrite v2])

/-- An event is a WDTCTL write carrying the password in its upper byte, or
is not a WDTCTL write at all. -/
def eventPwOk : Event → Bool
  | Event.wdtWrite v => v >>> 8 == WDTPW >>> 8
  | Event.ieWrite _ => true
  | Event.cbStore _ => true

/-- Every WDTCTL write in the trace carries the password in its upper byte. -/
def pwOk (evs : List Event) : Bool := evs.all eventPwOk

/-! ## Helper lemmas -/

theorem readLow_lt (s : MCU) : readLow s < 256 :=
  Nat.mod_lt _ (by norm_num)

theorem pw_add_byte : ∀ x < 256, (WDTPW + x) >>> 8 = WDTPW >>> 8 := by decide

theorem pw_or_byte : ∀ x < 256, (WDTPW ||| x) >>> 8 = WDTPW >>> 8 := by decide

theorem pw_add_mod : ∀ x < 256, (WDTPW + x) % 256 = x := by decide

theorem or_byte_lt {a b : Nat} (ha : a < 256) (hb : b < 256) : a ||| b < 256 := by
  have h := Nat.or_lt_two_pow (n := 8) (by norm_num at ha ⊢; exact ha)
    (by norm_num at hb ⊢; exact hb)
  norm_num at h
  exact h

theorem and_byte_lt (a : Nat) {b : Nat} (hb : b < 256) : a &&& b < 256 := by
  have h := Nat.and_lt_two_pow (n := 8) a (by norm_num at hb ⊢; exact hb)
  norm_num at h
  exact h

theorem wdtDividerBits_lt {d b : Nat} (h : wdtDividerBits d = some b) : b < 8 := by
  unfold wdtDividerBits at h
  split at h <;> simp_all [WDTIS_1, WDTIS_2, WDTIS_3] <;> omega

/-! ## Claim theorems -/

/-- C2 counterpart evaluation: `startWatchdog` with the spec-supported
divider 8192 falls into the `default:` branch of the switch and returns
status 2 with no committing write, for either valid clock source — the
source's `case 8912:` label makes the claimed mapping for 8192 fail. -/
theorem startWatchdog_rejects_8192 :
    (startWatchdog ⟨0, 0, none⟩ SMCLK 8192).2.1 = 2 ∧
    (startWatchdog ⟨0, 0, none⟩ ACLK 8192).2.1 = 2 ∧
    (startWatchdog ⟨0, 0, none⟩ SMCLK 8192).2.2 = [Event.wdtWrite (WDTPW + WDTHOLD)] := by
  decide

/-- C3 counterpart evaluation: a successful `startWatchdog` call commits a
value whose hold bit (bit 7) is still set, because `watchdogbits` is
initialised to `WDTHOLD | WDTCNTCL`; the watchdog is left held rather than
counting. -/
theorem startWatchdog_success_leaves_hold_set :
    (startWatchdog ⟨0, 0, none⟩ SMCLK 32768).2.1 = 0 ∧
    Nat.testBit (startWatchdog ⟨0, 0, none⟩ SMCLK 32768).1.wdtctl 7 = true := by
  decide

/-- C5 counterpart evaluation: divider 8912, which is outside the
spec-supported set {64, 512, 8192, 32768}, is accepted by the source's
switch: the call returns 0 and performs a second committing write instead of
returning status 2. -/
theorem startWatchdog_accepts_8912 :
    (startWatchdog ⟨0, 0, none⟩ SMCLK 8912).2.1 = 0 ∧
    (startWatchdog ⟨0, 0, none⟩ SMCLK 8912).2.2 =
      [Event.wdtWrite (WDTPW + WDTHOLD), Event.wdtWrite (WDTPW ||| (WDTHOLD ||| WDTCNTCL ||| WDTIS_1))] := by
  decide

/-- C6: for every prior register state, `clearWatchdog` commits a value
agreeing with the pre-call low byte on every bit other than the count-clear
bit (mask 0xF7 covers clock-source, timer-mode, interval-select, hold and
both NMI bits), with the count-clear bit (bit 3) additionally asserted. -/
theorem clearWatchdog_only_asserts_count_clear (s : MCU) :
    (clearWatchdog s).1.wdtctl &&& 0xF7 = readLow s &&& 0xF7 ∧
    Nat.testBit (clearWatchdog s).1.wdtctl 3 = true := by
  have ht : s.wdtctl % 256 < 256 := Nat.mod_lt _ (by norm_num)
  simp only [clearWatchdog, commitWDT, readLow]
  revert ht
  generalize s.wdtctl % 256 = t
  revert t
  decide

/-- C8: for every prior register state, `holdWatchdog` sets the hold bit
(bit 7), preserves every other low-byte bit (mask 0x7F), and is idempotent:
a second call leaves the machine state exactly as after the first call. -/
theorem holdWatchdog_sets_hold_and_is_idempotent (s : MCU) :
    Nat.testBit (holdWatchdog s).1.wdtctl 7 = true ∧
    (holdWatchdog s).1.wdtctl &&& 0x7F = readLow s &&& 0x7F ∧
    (holdWatchdog (holdWatchdog s).1).1 = (holdWatchdog s).1 := by
  have ht : s.wdtctl % 256 < 256 := Nat.mod_lt _ (by norm_num)
  simp only [holdWatchdog, commitWDT, readLow, MCU.mk.injEq, and_true, true_and]
  revert ht
  generalize s.wdtctl % 256 = t
  revert t
  decide

/-- C9: `holdWatchdogTimer` is semantically identical to `holdWatchdog`:
from every starting state both produce the same machine state and the same
event trace (and neither returns a value). -/
theorem holdWatchdogTimer_eq_holdWatchdog (s : MCU) :
    holdWatchdogTimer s = holdWatchdog s := rfl

/-- C10: whenever `startWatchdogTimer` returns a nonzero status, the IE1
register and the stored callback slot are unchanged from their pre-call
values: both error returns occur before `IE1 |= WDTIE` and before the
callback store. -/
theorem startWatchdogTimer_error_leaves_ie1_and_callback (s : MCU) (c d f : Nat)
    (h : (startWatchdogTimer s c d f).2.1 ≠ 0) :
    (startWatchdogTimer s c d f).1.ie1 = s.ie1 ∧
    (startWatchdogTimer s c d f).1.watchdogFunctionToCall = s.watchdogFunctionToCall := by
  obtain ⟨wdt, ie, cb⟩ := s
  by_cases hc : c ≠ ACLK ∧ c ≠ SMCLK
  · rw [startWatchdogTimer, if_pos hc]
    exact ⟨rfl, rfl⟩
  · rcases hv : wdtDividerBits d with _ | b
    · rw [startWatchdogTimer, if_neg hc]
      rw [hv]
      exact ⟨rfl, rfl⟩
    · exfalso
      apply h
      rw [startWatchdogTimer, if_neg hc]
      rw [hv]

/-- C10 witness: a concrete invalid clock source (5) leaves a concrete IE1
value and callback slot untouched. -/
theorem startWatchdogTimer_error_leaves_ie1_and_callback_witness :
    (startWatchdogTimer ⟨7, 9, some 3⟩ 5 64 1).1.ie1 = 9 ∧
    (startWatchdogTimer ⟨7, 9, some 3⟩ 5 64 1).1.watchdogFunctionToCall = some 3 :=
  startWatchdogTimer_error_leaves_ie1_and_callback ⟨7, 9, some 3⟩ 5 64 1 (by decide)

/-- C4: for every state, valid clock source, divider accepted by the
switch, and callback, `startWatchdogTimer` returns 0, sets the WDTIE bit
(bit 0) in IE1, stores the callback, and its trace is exactly: initial hold
write, IE1 write, callback store, and only then the final committing write,
whose value has the timer-mode-select bit (bit 4) set and the password in
the upper byte — so the callback store strictly precedes the final commit. -/
theorem startWatchdogTimer_valid_inputs (s : MCU) (c d f : Nat)
    (hc : c = ACLK ∨ c = SMCLK)
    (hd : d = 64 ∨ d = 512 ∨ d = 8912 ∨ d = 32768) :
    (startWatchdogTimer s c d f).2.1 = 0 ∧
    Nat.testBit (startWatchdogTimer s c d f).1.ie1 0 = true ∧
    (startWatchdogTimer s c d f).1.watchdogFunctionToCall = some f ∧
    ∃ v, (startWatchdogTimer s c d f).2.2 =
        [Event.wdtWrite (WDTPW + WDTHOLD), Event.ieWrite (s.ie1 ||| WDTIE),
         Event.cbStore f, Event.wdtWrite v] ∧
      Nat.testBit v 4 = true ∧ v >>> 8 = WDTPW >>> 8 := by
  obtain ⟨wdt, ie, cb⟩ := s
  have hIE : Nat.testBit (ie ||| WDTIE) 0 = true := by
    rw [Nat.testBit_or]
    rw [(by decide : Nat.testBit WDTIE 0 = true)]
    exact Bool.or_true _
  rcases hc with rfl | rfl <;> rcases hd with rfl | rfl | rfl | rfl <;>
    exact ⟨rfl, hIE, rfl, _, rfl, by decide, by decide⟩

/-- C4 witness: concrete valid inputs (sub-main clock, divider 64,
callback 5) from the zero state. -/
theorem startWatchdogTimer_valid_inputs_witness :
    (startWatchdogTimer ⟨0, 0, none⟩ SMCLK 64 5).2.1 = 0 ∧
    Nat.testBit (startWatchdogTimer ⟨0, 0, none⟩ SMCLK 64 5).1.ie1 0 = true ∧
    (startWatchdogTimer ⟨0, 0, none⟩ SMCLK 64 5).1.watchdogFunctionToCall = some 5 ∧
    ∃ v, (startWatchdogTimer ⟨0, 0, none⟩ SMCLK 64 5).2.2 =
        [Event.wdtWrite (WDTPW + WDTHOLD), Event.ieWrite ((0 : Nat) ||| WDTIE),
         Event.cbStore 5, Event.wdtWrite v] ∧
      Nat.testBit v 4 = true ∧ v >>> 8 = WDTPW >>> 8 :=
  startWatchdogTimer_valid_inputs ⟨0, 0, none⟩ SMCLK 64 5 (Or.inr rfl) (Or.inl rfl)

/-- C7: for every prior register state, `resetPinMode` leaves the NMI-select
bit (bit 5) set exactly when the mode argument is `NMI` and the
NMI-edge-select bit (bit 6) set exactly when the edge argument is `FALLING`
(so all four (mode, edge) combinations set or clear the two bits
independently of prior state), preserves every other low-byte bit
(mask 0x9F), and performs exactly two password-guarded register commits —
one for the mode bit, then one for the edge bit. -/
theorem resetPinMode_configures_nmi_bits (s : MCU) (mode edge : Nat) :
    Nat.testBit (resetPinMode s mode edge).1.wdtctl 5 = decide (mode = NMI) ∧
    Nat.testBit (resetPinMode s mode edge).1.wdtctl 6 = decide (edge = FALLING) ∧
    (resetPinMode s mode edge).1.wdtctl &&& 0x9F = readLow s &&& 0x9F ∧
    ∃ v1 v2, (resetPinMode s mode edge).2 = [Event.wdtWrite v1, Event.wdtWrite v2] ∧
      v1 >>> 8 = WDTPW >>> 8 ∧ v2 >>> 8 = WDTPW >>> 8 := by
  obtain ⟨wdt, ie, cb⟩ := s
  have ht : wdt % 256 < 256 := Nat.mod_lt _ (by norm_num)
  by_cases hm : mode = NMI <;> by_cases he : edge = FALLING
  · rw [resetPinMode, if_pos hm, if_pos he, decide_eq_true hm, decide_eq_true he]
    simp only [readLow, commitWDT]
    refine ⟨?_, ?_, ?_, _, _, rfl, ?_, ?_⟩
    · revert ht; generalize wdt % 256 = t; revert t; decide
    · revert ht; generalize wdt % 256 = t; revert t; decide
    · revert ht; generalize wdt % 256 = t; revert t; decide
    · exact pw_add_byte _ (or_byte_lt ht (by decide))
    · exact pw_add_byte _ (or_byte_lt (Nat.mod_lt _ (by norm_num)) (by decide))
  · rw [resetPinMode, if_pos hm, if_neg he, decide_eq_true hm, decide_eq_false he]
    simp only [readLow, commitWDT]
    refine ⟨?_, ?_, ?_, _, _, rfl, ?_, ?_⟩
    · revert ht; generalize wdt % 256 = t; revert t; decide
    · revert ht; generalize wdt % 256 = t; revert t; decide
    · revert ht; generalize wdt % 256 = t; revert t; decide
    · exact pw_add_byte _ (or_byte_lt ht (by decide))
    · exact pw_add_byte _ (and_byte_lt _ (by decide))
  · rw [resetPinMode, if_neg hm, if_pos he, decide_eq_false hm, decide_eq_true he]
    simp only [readLow, commitWDT]
    refine ⟨?_, ?_, ?_, _, _, rfl, ?_, ?_⟩
    · revert ht; generalize wdt % 256 = t; revert t; decide
    · revert ht; generalize wdt % 256 = t; revert t; decide
    · revert ht; generalize wdt % 256 = t; revert t; decide
    · exact pw_add_byte _ (and_byte_lt _ (by decide))
    · exact pw_add_byte _ (or_byte_lt (Nat.mod_lt _ (by norm_num)) (by decide))
  · rw [resetPinMode, if_neg hm, if_neg he, decide_eq_false hm, decide_eq_false he]
    simp only [readLow, commitWDT]
    refine ⟨?_, ?_, ?_, _, _, rfl, ?_, ?_⟩
    · revert ht; generalize wdt % 256 = t; revert t; decide
    · revert ht; generalize wdt % 256 = t; revert t; decide
    · revert ht; generalize wdt % 256 = t; revert t; decide
    · exact pw_add_byte _ (and_byte_lt _ (by decide))
    · exact pw_add_byte _ (and_byte_lt _ (by decide))

/-- C1: every write any operation of the library commits to WDTCTL carries
the password constant WDTPW in the upper byte of the written 16-bit value
(`v >>> 8 = WDTPW >>> 8`), for every register state and all inputs, across
all nine operations of the component. -/
theorem every_committed_write_carries_password :
    (∀ s, pwOk (detectWatchdog s).2.2 = true) ∧
    (∀ s, pwOk (holdWatchdog s).2 = true) ∧
    (∀ s c d, pwOk (startWatchdog s c d).2.2 = true) ∧
    (∀ s, pwOk (resetWatchdog s).2 = true) ∧
    (∀ s, pwOk (clearWatchdog s).2 = true) ∧
    (∀ s, pwOk (holdWatchdogTimer s).2 = true) ∧
    (∀ s c d f, pwOk (startWatchdogTimer s c d f).2.2 = true) ∧
    (∀ s, pwOk (resetWatchdogTimer s).2 = true) ∧
    (∀ s mode edge, pwOk (resetPinMode s mode edge).2 = true) := by
  refine ⟨?_, ?_, ?_, ?_, ?_, ?_, ?_, ?_, ?_⟩
  · intro s
    obtain ⟨wdt, ie, cb⟩ := s
    have ht : wdt % 256 < 256 := Nat.mod_lt _ (by norm_num)
    simp only [detectWatchdog, readLow, commitWDT, pwOk, eventPwOk, List.all_cons,
      List.all_nil, Bool.and_true, beq_iff_eq]
    exact pw_add_byte _ (or_byte_lt ht (by decide))
  · intro s
    obtain ⟨wdt, ie, cb⟩ := s
    have ht : wdt % 256 < 256 := Nat.mod_lt _ (by norm_num)
    simp only [holdWatchdog, readLow, commitWDT, pwOk, eventPwOk, List.all_cons,
      List.all_nil, Bool.and_true, beq_iff_eq]
    exact pw_add_byte _ (or_byte_lt ht (by decide))
  · intro s c d
    obtain ⟨wdt, ie, cb⟩ := s
    by_cases hc : c ≠ ACLK ∧ c ≠ SMCLK
    · rw [startWatchdog, if_pos hc]
      simp only [pwOk, eventPwOk, List.all_cons, List.all_nil, Bool.and_true, beq_iff_eq]
      decide
    · rcases hv : wdtDividerBits d with _ | b
      · rw [startWatchdog, if_neg hc]
        rw [hv]
        simp only [pwOk, eventPwOk, List.all_cons, List.all_nil, Bool.and_true, beq_iff_eq]
        decide
      · have hb256 : b < 256 := Nat.lt_trans (wdtDividerBits_lt hv) (by norm_num)
        rw [startWatchdog, if_neg hc]
        rw [hv]
        by_cases ha : c = ACLK
        · rw [if_pos ha]
          simp only [pwOk, eventPwOk, List.cons_append, List.nil_append, List.all_cons,
            List.all_nil, Bool.and_true, Bool.and_eq_true, beq_iff_eq]
          exact ⟨by decide, pw_or_byte _ (or_byte_lt (by decide) hb256)⟩
        · rw [if_neg ha]
          simp only [pwOk, eventPwOk, List.cons_append, List.nil_append, List.all_cons,
            List.all_nil, Bool.and_true, Bool.and_eq_true, beq_iff_eq]
          exact ⟨by decide, pw_or_byte _ (or_byte_lt (by decide) hb256)⟩
  · intro s
    simp only [resetWatchdog, pwOk, eventPwOk, List.all_cons, List.all_nil, Bool.and_true,
      beq_iff_eq]
  · intro s
    obtain ⟨wdt, ie, cb⟩ := s
    have ht : wdt % 256 < 256 := Nat.mod_lt _ (by norm_num)
    simp only [clearWatchdog, readLow, commitWDT, pwOk, eventPwOk, List.all_cons,
      List.all_nil, Bool.and_true, beq_iff_eq]
    exact pw_add_byte _ (or_byte_lt ht (by decide))
  · intro s
    obtain ⟨wdt, ie, cb⟩ := s
    have ht : wdt % 256 < 256 := Nat.mod_lt _ (by norm_num)
    simp only [holdWatchdogTimer, readLow, commitWDT, pwOk, eventPwOk, List.all_cons,
      List.all_nil, Bool.and_true, beq_iff_eq]
    exact pw_add_byte _ (or_byte_lt ht (by decide))
  · intro s c d f
    obtain ⟨wdt, ie, cb⟩ := s
    by_cases hc : c ≠ ACLK ∧ c ≠ SMCLK
    · rw [startWatchdogTimer, if_pos hc]
      simp only [pwOk, eventPwOk, List.all_cons, List.all_nil, Bool.and_true, beq_iff_eq]
      decide
    · rcases hv : wdtDividerBits d with _ | b
      · rw [startWatchdogTimer, if_neg hc]
        rw [hv]
        simp only [pwOk, eventPwOk, List.all_cons, List.all_nil, Bool.and_true, beq_iff_eq]
        decide
      · have hb256 : b < 256 := Nat.lt_trans (wdtDividerBits_lt hv) (by norm_num)
        rw [startWatchdogTimer, if_neg hc]
        rw [hv]
        by_cases ha : c = ACLK
        · rw [if_pos ha]
          simp only [pwOk, eventPwOk, List.cons_append, List.nil_append, List.all_cons,
            List.all_nil, Bool.and_true, Bool.true_and, Bool.and_eq_true, beq_iff_eq]
          exact ⟨by decide, pw_or_byte _ (or_byte_lt (by decide) hb256)⟩
        · rw [if_neg ha]
          simp only [pwOk, eventPwOk, List.cons_append, List.nil_append, List.all_cons,
            List.all_nil, Bool.and_true, Bool.true_and, Bool.and_eq_true, beq_iff_eq]
          exact ⟨by decide, pw_or_byte _ (or_byte_lt (by decide) hb256)⟩
  · intro s
    obtain ⟨wdt, ie, cb⟩ := s
    have ht : wdt % 256 < 256 := Nat.mod_lt _ (by norm_num)
    simp only [resetWatchdogTimer, readLow, commitWDT, pwOk, eventPwOk, List.all_cons,
      List.all_nil, Bool.and_true, beq_iff_eq]
    exact pw_add_byte _ (or_byte_lt ht (by decide))
  · intro s mode edge
    obtain ⟨wdt, ie, cb⟩ := s
    have ht : wdt % 256 < 256 := Nat.mod_lt _ (by norm_num)
    by_cases hm : mode = NMI <;> by_cases he : edge = FALLING
    · rw [resetPinMode, if_pos hm, if_pos he]
      simp only [readLow, commitWDT, pwOk, eventPwOk, List.all_cons, List.all_nil,
        Bool.and_true, Bool.and_eq_true, beq_iff_eq]
      exact ⟨pw_add_byte _ (or_byte_lt ht (by decide)),
        pw_add_byte _ (or_byte_lt (Nat.mod_lt _ (by norm_num)) (by decide))⟩
    · rw [resetPinMode, if_pos hm, if_neg he]
      simp only [readLow, commitWDT, pwOk, eventPwOk, List.all_cons, List.all_nil,
        Bool.and_true, Bool.and_eq_true, beq_iff_eq]
      exact ⟨pw_add_byte _ (or_byte_lt ht (by decide)),
        pw_add_byte _ (and_byte_lt _ (by decide))⟩
    · rw [resetPinMode, if_neg hm, if_pos he]
      simp only [readLow, commitWDT, pwOk, eventPwOk, List.all_cons, List.all_nil,
        Bool.and_true, Bool.and_eq_true, beq_iff_eq]
      exact ⟨pw_add_byte _ (and_byte_lt _ (by decide)),
        pw_add_byte _ (or_byte_lt (Nat.mod_lt _ (by norm_num)) (by decide))⟩
    · rw [resetPinMode, if_neg hm, if_neg he]
      simp only [readLow, commitWDT, pwOk, eventPwOk, List.all_cons, List.all_nil,
        Bool.and_true, Bool.and_eq_true, beq_iff_eq]
      exact ⟨pw_add_byte _ (and_byte_lt _ (by decide)),
        pw_add_byte _ (and_byte_lt _ (by decide))⟩
